import Mathlib

/-!
Shallow embedding of the translation-service repository
(`src/translation_service_challenge/utils.py`, `__init__.py`) used to check
the natural-language specification against the code.

Python values reachable in the provider metadata are modelled by `Val`
(lists, strings, integers, None); Python exceptions by `Err`; fallible
Python evaluation by `Except Err`.  Each Lean definition mirrors one Python
function or statement block of the source, keeping the source's names.
-/

set_option autoImplicit false

namespace TranslationService

/-- Model of a Python value as it occurs in the nested provider metadata. -/
inductive Val where
  | vint (n : Int)
  | vstr (s : String)
  | vlist (xs : List Val)
  | vnone

/-- Model of the exceptions the embedded code can raise or return.
`http s d` models a `fastapi.HTTPException(status_code = s, detail = d)`;
the others model the corresponding Python/bson/pymongo exception classes. -/
inductive Err where
  | http (status : Nat) (detail : String)
  | pyIndexError
  | pyTypeError
  | pyKeyError
  | validationError
  | duplicateKey
  deriving DecidableEq, Repr

/-- Python subscription `x[i]` for a non-negative literal index `i`:
lists and strings index (raising `IndexError` out of range, a one-character
string for a string); integers and `None` raise `TypeError`. -/
def getitem (x : Val) (i : Nat) : Except Err Val :=
  match x with
  | .vlist xs =>
    match xs.get? i with
    | some v => .ok v
    | none => .error .pyIndexError
  | .vstr s =>
    match s.data.get? i with
    | some c => .ok (.vstr (String.mk [c]))
    | none => .error .pyIndexError
  | .vint _ => .error .pyTypeError
  | .vnone => .error .pyTypeError

/-- Python iteration `for x in v`: lists yield their elements, strings yield
their characters as one-character strings, anything else raises `TypeError`. -/
def pyIter (x : Val) : Except Err (List Val) :=
  match x with
  | .vlist xs => .ok xs
  | .vstr s => .ok (s.data.map (fun c => Val.vstr (String.mk [c])))
  | .vint _ => .error .pyTypeError
  | .vnone => .error .pyTypeError

/-- Chained subscription `x[i][j]...` along a path of literal indices. -/
def getPath (x : Val) (path : List Nat) : Except Err Val :=
  match path with
  | [] => .ok x
  | i :: rest =>
    match getitem x i with
    | .ok v => getPath v rest
    | .error e => .error e

/-- A `try: ... except (IndexError, TypeError): ...` block around a
subscription chain: those two exception classes are replaced by the default
value, any other exception propagates. -/
def catchIT (r : Except Err Val) (dflt : Val) : Except Err Val :=
  match r with
  | .ok v => .ok v
  | .error .pyIndexError => .ok dflt
  | .error .pyTypeError => .ok dflt
  | .error e => .error e

/-- One step of `re.sub(HTML_CLEANER_REGEX, "", s)` for the pattern `<.*?>`:
`buf` holds (reversed) the characters of a pending candidate tag opened by an
unmatched `<`.  A `>` closes and discards the candidate; `.` never matches a
newline, so a newline flushes the candidate back to the output verbatim; at
end of input an unclosed candidate is likewise kept verbatim. -/
def stripSM : List Char → List Char → List Char
  | [], buf => buf.reverse
  | c :: r, buf =>
    if buf.isEmpty then
      if c = '<' then stripSM r [c]
      else c :: stripSM r []
    else
      if c = '>' then stripSM r []
      else if c = '\n' then buf.reverse ++ '\n' :: stripSM r []
      else stripSM r (c :: buf)

/-- `re.sub(HTML_CLEANER_REGEX, "", s)` with `HTML_CLEANER_REGEX = "<.*?>"`
applied to a string. -/
def pySubHtml (s : String) : String :=
  String.mk (stripSM s.data [])

/-- `re.sub(HTML_CLEANER_REGEX, "", x)` applied to an arbitrary value:
raises `TypeError` unless `x` is a string. -/
def pySubHtmlVal (x : Val) : Except Err String :=
  match x with
  | .vstr s => .ok (pySubHtml s)
  | _ => .error .pyTypeError

/-- Pydantic validation of `Definition(text = v)`: the `text` field is
declared `str`, so a non-string raises a validation error. -/
def mkDefinitionText (v : Val) : Except Err String :=
  match v with
  | .vstr s => .ok s
  | _ => .error .validationError

/-- The `Definition` pydantic model of `db.py`.  `synonyms` is filled by
plain attribute assignment (unvalidated), so it may hold arbitrary values. -/
structure Definition where
  text : String
  synonyms : List Val

/-- The `Details` pydantic model of `db.py`.  `translations` is a Python
dict, modelled as an insertion-ordered association list; its values come
from unvalidated assignment and dict mutation, hence `List Val`. -/
structure Details where
  id : Option String
  text : String
  source_language : String
  definitions : List Definition
  examples : List String
  translations : List (String × List Val)

/-- Python `dict.get(key, None)` / key membership for the insertion-ordered
association list modelling a dict: first (unique) binding of `key`. -/
def lookupA {α : Type} : List (String × α) → String → Option α
  | [], _ => none
  | (k, v) :: rest, key => if k == key then some v else lookupA rest key

/-- Python `d[key] = v` on a dict: replace the binding in place when the key
is present, append it at the end of the insertion order otherwise. -/
def insertA {α : Type} : List (String × α) → String → α → List (String × α)
  | [], key, v => [(key, v)]
  | (k, w) :: rest, key, v =>
    if k == key then (key, v) :: rest else (k, w) :: insertA rest key v

/-- `utils.parse_definitions`, inner loop over `definition_parts`.  Each part:
`definition_part[0]` under `except (IndexError, TypeError): continue`;
`Definition(text = ...)` (validated); `definition_part[5][0][0]` under
`except (IndexError, TypeError)` defaulting to `[]`; then the comprehension
`[synonym for synonyms in synonyms_nested for synonym in synonyms]`, whose
iterations are not guarded. -/
def defPartsLoop : List Val → Except Err (List Definition)
  | [] => .ok []
  | p :: rest =>
    match getitem p 0 with
    | .error .pyIndexError => defPartsLoop rest
    | .error .pyTypeError => defPartsLoop rest
    | .error e => .error e
    | .ok tv =>
      match mkDefinitionText tv with
      | .error e => .error e
      | .ok tx =>
        match catchIT (getPath p [5, 0, 0]) (.vlist []) with
        | .error e => .error e
        | .ok nv =>
          match pyIter nv with
          | .error e => .error e
          | .ok outer =>
            match outer.mapM pyIter with
            | .error e => .error e
            | .ok inner =>
              match defPartsLoop rest with
              | .error e => .error e
              | .ok ds => .ok (⟨tx, inner.flatten⟩ :: ds)

/-- `utils.parse_definitions`, outer loop over `definition_blocks`:
`definition_block[1]` under `except (IndexError, TypeError): continue`,
then the (unguarded) iteration over the parts. -/
def defBlocksLoop : List Val → Except Err (List Definition)
  | [] => .ok []
  | b :: rest =>
    match getitem b 1 with
    | .error .pyIndexError => defBlocksLoop rest
    | .error .pyTypeError => defBlocksLoop rest
    | .error e => .error e
    | .ok pv =>
      match pyIter pv with
      | .error e => .error e
      | .ok parts =>
        match defPartsLoop parts with
        | .error e => .error e
        | .ok ds =>
          match defBlocksLoop rest with
          | .error e => .error e
          | .ok ds2 => .ok (ds ++ ds2)

/-- `utils.parse_definitions`: `metadata[3][1][0]` under
`except (IndexError, TypeError)` defaulting to `[]`, then the (unguarded)
`for definition_block in definition_blocks` loop. -/
def parse_definitions (metadata : Val) : Except Err (List Definition) :=
  match catchIT (getPath metadata [3, 1, 0]) (.vlist []) with
  | .error e => .error e
  | .ok bv =>
    match pyIter bv with
    | .error e => .error e
    | .ok blocks => defBlocksLoop blocks

/-- `utils.parse_examples`, loop over `example_blocks`: `example_block[1]`
under `except (IndexError, TypeError): continue`, then the unguarded
`re.sub` tag-stripping of the text. -/
def exBlocksLoop : List Val → Except Err (List String)
  | [] => .ok []
  | b :: rest =>
    match getitem b 1 with
    | .error .pyIndexError => exBlocksLoop rest
    | .error .pyTypeError => exBlocksLoop rest
    | .error e => .error e
    | .ok tv =>
      match pySubHtmlVal tv with
      | .error e => .error e
      | .ok ex =>
        match exBlocksLoop rest with
        | .error e => .error e
        | .ok es => .ok (ex :: es)

/-- `utils.parse_examples`: `metadata[3][2][0]` under
`except (IndexError, TypeError)` defaulting to `[]`, then the loop. -/
def parse_examples (metadata : Val) : Except Err (List String) :=
  match catchIT (getPath metadata [3, 2, 0]) (.vlist []) with
  | .error e => .error e
  | .ok bv =>
    match pyIter bv with
    | .error e => .error e
    | .ok blocks => exBlocksLoop blocks

/-- `utils.parse_translations`, inner loop over `translation_parts`:
`translation_part[0]` under `except (IndexError, TypeError): continue`,
appended unvalidated. -/
def trPartsLoop : List Val → Except Err (List Val)
  | [] => .ok []
  | p :: rest =>
    match getitem p 0 with
    | .error .pyIndexError => trPartsLoop rest
    | .error .pyTypeError => trPartsLoop rest
    | .error e => .error e
    | .ok tv =>
      match trPartsLoop rest with
      | .error e => .error e
      | .ok ts => .ok (tv :: ts)

/-- `utils.parse_translations`, outer loop over `translation_blocks`:
`translation_block[1]` under `except (IndexError, TypeError): continue`,
then the (unguarded) iteration over the parts. -/
def trBlocksLoop : List Val → Except Err (List Val)
  | [] => .ok []
  | b :: rest =>
    match getitem b 1 with
    | .error .pyIndexError => trBlocksLoop rest
    | .error .pyTypeError => trBlocksLoop rest
    | .error e => .error e
    | .ok pv =>
      match pyIter pv with
      | .error e => .error e
      | .ok parts =>
        match trPartsLoop parts with
        | .error e => .error e
        | .ok ts =>
          match trBlocksLoop rest with
          | .error e => .error e
          | .ok ts2 => .ok (ts ++ ts2)

/-- `utils.parse_translations`: `metadata[3][5][0]` under
`except (IndexError, TypeError)` defaulting to `[]`, the loops, and finally
`return {target_language: translations}`. -/
def parse_translations (metadata : Val) (target_language : String) :
    Except Err (List (String × List Val)) :=
  match catchIT (getPath metadata [3, 5, 0]) (.vlist []) with
  | .error e => .error e
  | .ok bv =>
    match pyIter bv with
    | .error e => .error e
    | .ok blocks =>
      match trBlocksLoop blocks with
      | .error e => .error e
      | .ok ts => .ok [(target_language, ts)]

/-- `utils.parse_translation_metadata`: builds a `Details` for `text` and
`source_language` and fills `definitions`, `examples` and `translations`
from the three section routines, in that order. -/
def parse_translation_metadata (text source_language target_language : String)
    (metadata : Val) : Except Err Details :=
  match parse_definitions metadata with
  | .error e => .error e
  | .ok ds =>
    match parse_examples metadata with
    | .error e => .error e
    | .ok es =>
      match parse_translations metadata target_language with
      | .error e => .error e
      | .ok ts =>
        .ok { id := none, text := text, source_language := source_language,
              definitions := ds, examples := es, translations := ts }

/-- The observable behavior of the one `translator.translate` call a request
makes: the call raised, returned a list, or returned a single result with
the given `extra_data` dict. -/
inductive ProviderResp where
  | raised
  | listResult (xs : List Val)
  | single (extra_data : List (String × Val))

/-- `utils.translate_text`: a raising provider call becomes a 502, a list
result becomes a 502, a falsy `extra_data` becomes a 502; otherwise
`extra_data["parsed"]` is returned (an absent `"parsed"` key would raise
`KeyError`). -/
def translate_text (r : ProviderResp) : Except Err Val :=
  match r with
  | .raised =>
    .error (.http 502 "Unable to fetch translation from Google Translate API.")
  | .listResult _ =>
    .error (.http 502 "Translation value is invalid! Expected a single translation, received a list.")
  | .single extra_data =>
    if extra_data.isEmpty then
      .error (.http 502 "Translation does not have extra data! Unable to parse.")
    else
      match lookupA extra_data "parsed" with
      | some v => .ok v
      | none => .error .pyKeyError

/-- One document of the `details` Mongo collection: an `_id` (ObjectId,
abstracted to its canonical hex string) plus the `Details` fields. -/
structure StoredDoc where
  oid : String
  data : Details

/-- `details_collection.find_one({"text": text, "source_language": sl})`:
first document matching both fields. -/
def find_one (db : List StoredDoc) (text source_language : String) :
    Option StoredDoc :=
  db.find? (fun s => s.data.text == text && s.data.source_language == source_language)

/-- A MongoDB `$set` document touching the `translations` field, as issued
by an `update_one`.  The code of `get_details` only ever issues `wholeMap`
(path `"translations"`); `oneKey` (path `"translations.<k>"`) is the
single-key-path update the specification describes and is kept for
comparison. -/
inductive TransUpdate where
  | wholeMap (m : List (String × List Val))
  | oneKey (k : String) (l : List Val)

/-- MongoDB `$set` semantics of a `TransUpdate` on a stored `translations`
map: path `"translations"` replaces the whole map; path `"translations.k"`
sets only the binding of `k`. -/
def applyTransUpdate (u : TransUpdate) (m : List (String × List Val)) :
    List (String × List Val) :=
  match u with
  | .wholeMap m2 => m2
  | .oneKey k l => insertA m k l

/-- `details_collection.update_one({"_id": oid}, {"$set": ...})`: apply the
update to the first document with the given `_id`. -/
def updateOneById (db : List StoredDoc) (oid : String) (u : TransUpdate) :
    List StoredDoc :=
  match db with
  | [] => []
  | s :: rest =>
    if s.oid == oid then
      { s with data := { s.data with
          translations := applyTransUpdate u s.data.translations } } :: rest
    else s :: updateOneById rest oid u

/-- First document with the given `_id`. -/
def findById (db : List StoredDoc) (oid : String) : Option StoredDoc :=
  db.find? (fun s => s.oid == oid)

/-- Everything observable about one `get_details` request: the HTTP
response, the collection contents afterwards, how many provider calls were
made, and the update and insert operations issued against storage. -/
structure GetResult where
  resp : Except Err Details
  db : List StoredDoc
  providerCalls : Nat
  updates : List (String × TransUpdate)
  inserts : List Details

/-- The `GET /details` handler `get_details` of `__init__.py`.

`dbFind` is the collection contents seen by the initial `find_one` and
`dbIns` the contents at the later write (they differ exactly when a
concurrent request commits in between; the sequential case is
`dbIns = dbFind`).  `newOid` is the ObjectId the store would assign to an
inserted document, and `pr` the provider's behavior for this request.

Mirrors the source: find; on a hit, if `translations.get(target_language,
None) is None` fetch, parse translations, assign the dict key and
`update_one` a `$set` of the whole `translations` field, else return the
stored entity; on a miss fetch, parse fully and `insert_one` — the insert
is not guarded, so a uniqueness violation raises `duplicateKey` to the
caller. -/
def get_details (dbFind dbIns : List StoredDoc) (newOid : String)
    (pr : ProviderResp) (text source_language target_language : String) :
    GetResult :=
  match find_one dbFind text source_language with
  | some stored =>
    let details : Details := { stored.data with id := some stored.oid }
    match lookupA details.translations target_language with
    | some _ =>
      { resp := .ok details, db := dbIns, providerCalls := 0,
        updates := [], inserts := [] }
    | none =>
      match translate_text pr with
      | .error e =>
        { resp := .error e, db := dbIns, providerCalls := 1,
          updates := [], inserts := [] }
      | .ok metadata =>
        match parse_translations metadata target_language with
        | .error e =>
          { resp := .error e, db := dbIns, providerCalls := 1,
            updates := [], inserts := [] }
        | .ok translation =>
          match lookupA translation target_language with
          | none =>
            { resp := .error .pyKeyError, db := dbIns, providerCalls := 1,
              updates := [], inserts := [] }
          | some l =>
            let newTrans := insertA details.translations target_language l
            { resp := .ok { details with translations := newTrans },
              db := updateOneById dbIns stored.oid (.wholeMap newTrans),
              providerCalls := 1,
              updates := [(stored.oid, .wholeMap newTrans)],
              inserts := [] }
  | none =>
    match translate_text pr with
    | .error e =>
      { resp := .error e, db := dbIns, providerCalls := 1,
        updates := [], inserts := [] }
    | .ok metadata =>
      match parse_translation_metadata text source_language target_language metadata with
      | .error e =>
        { resp := .error e, db := dbIns, providerCalls := 1,
          updates := [], inserts := [] }
      | .ok details =>
        if dbIns.any (fun s => s.data.text == text &&
            s.data.source_language == source_language) then
          { resp := .error .duplicateKey, db := dbIns, providerCalls := 1,
            updates := [], inserts := [] }
        else
          { resp := .ok { details with id := some newOid },
            db := dbIns ++ [{ oid := newOid, data := details }],
            providerCalls := 1, updates := [], inserts := [details] }

/-- `bson.ObjectId(s)` validity for a string argument: exactly 24
hexadecimal characters. -/
def isValidOid (s : String) : Bool :=
  s.length == 24 && s.data.all (fun c =>
    c.isDigit || ('a' ≤ c && c ≤ 'f') || ('A' ≤ c && c ≤ 'F'))

/-- Everything observable about one `DELETE /details/{id}` request: the
response (`.ok ()` is the 204), the collection afterwards, and how many
storage delete operations were attempted. -/
structure DeleteResult where
  resp : Except Err Unit
  db : List StoredDoc
  deleteOps : Nat

/-- ASCII lower-casing of one hex digit, as ObjectId decoding performs. -/
def hexLower (c : Char) : Char :=
  if 'A' ≤ c && c ≤ 'Z' then Char.ofNat (c.toNat + 32) else c

/-- ObjectId equality is on the decoded bytes, hence case-insensitive on
the hex string. -/
def oidMatches (id : String) (s : StoredDoc) : Bool :=
  s.oid.data.map hexLower == id.data.map hexLower

/-- The `DELETE /details/{id}` handler `delete_details` of `__init__.py`:
an invalid ObjectId string yields a 400 before any storage call; otherwise
`delete_one({"_id": ObjectId(id)})` runs, and a `deleted_count` of 1 yields
the 204 while 0 yields a 404. -/
def delete_details (id : String) (db : List StoredDoc) : DeleteResult :=
  if isValidOid id then
    if db.any (oidMatches id) then
      { resp := .ok (), db := db.eraseP (oidMatches id), deleteOps := 1 }
    else
      { resp := .error (.http 404 ("Details " ++ id ++ " not found")),
        db := db, deleteOps := 1 }
  else
    { resp := .error (.http 400 ("Details " ++ id ++ " is invalid")),
      db := db, deleteOps := 0 }

/-! Concrete fixtures used to instantiate the theorems. -/

/-- A stored ObjectId hex string. -/
def oid1 : String := "aaaaaaaaaaaaaaaaaaaaaaaa"

/-- A fresh ObjectId hex string the store would assign on insert. -/
def oid2 : String := "bbbbbbbbbbbbbbbbbbbbbbbb"

/-- A stored entity for ("casa", "en") with one cached target language. -/
def casaDetails : Details :=
  { id := none, text := "casa", source_language := "en",
    definitions := [{ text := "a dwelling", synonyms := [Val.vstr "home"] }],
    examples := ["mi casa"],
    translations := [("es", [Val.vstr "hola"])] }

/-- The document of `casaDetails` in the collection. -/
def docCasa : StoredDoc := { oid := oid1, data := casaDetails }

/-- The same document after a concurrent request added the key "de". -/
def docCasaDe : StoredDoc :=
  { oid := oid1, data := { casaDetails with
      translations := [("es", [Val.vstr "hola"]), ("de", [Val.vstr "hallo"])] } }

/-- Provider metadata whose translations section holds one part "bonjour"
and whose definitions and examples sections are absent. -/
def frMeta : Val :=
  .vlist [.vint 0, .vint 0, .vint 0,
    .vlist [.vint 0, .vint 0, .vint 0, .vint 0, .vint 0,
      .vlist [.vlist [.vlist [.vint 0, .vlist [.vlist [.vstr "bonjour"]]]]]]]

/-- A successful provider response carrying `frMeta`. -/
def prFr : ProviderResp := .single [("parsed", frMeta)]

/-- Provider metadata in which all three sections are missing. -/
def emptyMeta : Val := .vlist [.vint 0, .vint 0, .vint 0, .vlist []]

/-- A successful provider response carrying `emptyMeta`. -/
def prEmpty : ProviderResp := .single [("parsed", emptyMeta)]

/-- Metadata whose definitions section resolves to the integer 7: the
`except` clause accepts it, and the following `for` loop then raises an
uncaught `TypeError`. -/
def badDefsMeta : Val :=
  .vlist [.vint 0, .vint 0, .vint 0, .vlist [.vint 0, .vlist [.vint 7]]]

/-- Metadata whose translations section resolves to the integer 7. -/
def badTransMeta : Val :=
  .vlist [.vint 0, .vint 0, .vint 0,
    .vlist [.vint 0, .vint 0, .vint 0, .vint 0, .vint 0, .vlist [.vint 7]]]

/-- Metadata for P4: one definition item with text "casa" but no synonyms
sub-position, and one definition item with no text sub-position. -/
def p4Meta : Val :=
  .vlist [.vint 0, .vint 0, .vint 0,
    .vlist [.vint 0,
      .vlist [.vlist [.vlist [.vint 0,
        .vlist [.vlist [.vstr "casa"], .vlist []]]]]]]

/-- Metadata for P5: one example block whose text carries HTML markup. -/
def p5Meta : Val :=
  .vlist [.vint 0, .vint 0, .vint 0,
    .vlist [.vint 0, .vint 0,
      .vlist [.vlist [.vlist [.vint 0, .vstr "<b>hola</b> mundo"]]]]]

/-- The entity creation builds from `emptyMeta` for ("casa","en","fr"):
every section empty, and the requested key cached with an empty list. -/
def cachedEmptyDetails : Details :=
  { id := none, text := "casa", source_language := "en",
    definitions := [], examples := [], translations := [("fr", [])] }

/-! Helper lemmas about the dict and collection models. -/

theorem lookupA_append_ne {α : Type} (l : List (String × α)) (key k : String)
    (v : α) (h : k ≠ key) : lookupA (l ++ [(key, v)]) k = lookupA l k := by
  induction l with
  | nil =>
    simp only [List.nil_append, lookupA]
    rw [if_neg]
    simp only [beq_iff_eq]
    exact fun hkk => h hkk.symm
  | cons p rest ih =>
    obtain ⟨k2, v2⟩ := p
    simp only [List.cons_append, lookupA]
    split
    · rfl
    · exact ih

theorem lookupA_append_self {α : Type} (l : List (String × α)) (key : String)
    (v : α) (h : lookupA l key = none) :
    lookupA (l ++ [(key, v)]) key = some v := by
  induction l with
  | nil => simp [lookupA]
  | cons p rest ih =>
    obtain ⟨k2, v2⟩ := p
    simp only [lookupA] at h
    simp only [List.cons_append, lookupA]
    by_cases hk : (k2 == key) = true
    · rw [hk] at h; simp at h
    · rw [if_neg hk] at h ⊢
      exact ih h

theorem insertA_eq_append {α : Type} (l : List (String × α)) (key : String)
    (v : α) (h : lookupA l key = none) : insertA l key v = l ++ [(key, v)] := by
  induction l with
  | nil => simp [insertA]
  | cons p rest ih =>
    obtain ⟨k2, v2⟩ := p
    simp only [lookupA] at h
    simp only [insertA, List.cons_append]
    by_cases hk : (k2 == key) = true
    · rw [hk] at h; simp at h
    · rw [if_neg hk] at h ⊢
      rw [ih h]

theorem find_one_none_any_false (db : List StoredDoc) (text sl : String)
    (h : find_one db text sl = none) :
    db.any (fun s => s.data.text == text && s.data.source_language == sl) = false := by
  induction db with
  | nil => rfl
  | cons d rest ih =>
    simp only [find_one, List.find?] at h ih
    simp only [List.any_cons]
    cases hm : (d.data.text == text && d.data.source_language == sl) with
    | true => rw [hm] at h; exact absurd h (by simp)
    | false =>
      rw [hm] at h
      simp only [Bool.false_or]
      exact ih h

theorem find_one_append_none (db : List StoredDoc) (d : StoredDoc)
    (text sl : String) (h : find_one db text sl = none)
    (hd : (d.data.text == text && d.data.source_language == sl) = true) :
    find_one (db ++ [d]) text sl = some d := by
  induction db with
  | nil => simp only [List.nil_append, find_one, List.find?, hd]
  | cons e rest ih =>
    simp only [find_one, List.find?] at h ih ⊢
    cases hm : (e.data.text == text && e.data.source_language == sl) with
    | true => rw [hm] at h; exact absurd h (by simp)
    | false =>
      rw [hm] at h
      simp only [List.cons_append, List.find?, hm]
      exact ih h

theorem updateOneById_findById (db : List StoredDoc) (oid : String)
    (u : TransUpdate) (stored : StoredDoc) (h : findById db oid = some stored) :
    findById (updateOneById db oid u) oid =
      some { stored with data := { stored.data with
        translations := applyTransUpdate u stored.data.translations } } := by
  induction db with
  | nil => simp [findById, List.find?] at h
  | cons d rest ih =>
    simp only [findById, List.find?] at h ih ⊢
    by_cases hd : (d.oid == oid) = true
    · rw [hd] at h
      simp only [Option.some.injEq] at h
      subst h
      unfold updateOneById
      rw [if_pos hd]
      simp only [List.find?, hd]
    · have hd' : (d.oid == oid) = false := by
        cases hm : (d.oid == oid) with
        | true => exact absurd hm hd
        | false => rfl
      rw [hd'] at h
      unfold updateOneById
      rw [if_neg hd]
      simp only [List.find?, hd']
      exact ih h

theorem updateOneById_mem (db : List StoredDoc) (oid : String)
    (u : TransUpdate) (s : StoredDoc) (hs : s ∈ updateOneById db oid u)
    (hne : s.oid ≠ oid) : s ∈ db := by
  induction db with
  | nil => simp [updateOneById] at hs
  | cons d rest ih =>
    unfold updateOneById at hs
    by_cases hd : (d.oid == oid) = true
    · rw [if_pos hd] at hs
      rcases List.mem_cons.mp hs with h1 | h2
      · exfalso
        apply hne
        rw [h1]
        exact eq_of_beq hd
      · exact List.mem_cons_of_mem d h2
    · rw [if_neg hd] at hs
      rcases List.mem_cons.mp hs with h1 | h2
      · rw [h1]; exact List.mem_cons_self d rest
      · exact List.mem_cons_of_mem d (ih h2)

theorem eraseP_split {α : Type} (p : α → Bool) (db : List α)
    (hany : db.any p = true) :
    ∃ x pre post, db = pre ++ x :: post ∧ p x = true ∧
      (∀ t ∈ pre, p t = false) ∧ db.eraseP p = pre ++ post := by
  induction db with
  | nil => simp at hany
  | cons d rest ih =>
    cases hd : p d with
    | true =>
      exact ⟨d, [], rest, by simp, hd, by simp, by simp [List.eraseP_cons, hd]⟩
    | false =>
      have hany' : rest.any p = true := by simpa [hd] using hany
      obtain ⟨x, pre, post, hsplit, hx, hpre, hdb⟩ := ih hany'
      refine ⟨x, d :: pre, post, by simp [hsplit], hx, ?_, ?_⟩
      · intro t ht
        rcases List.mem_cons.mp ht with h1 | h2
        · rw [h1]; exact hd
        · exact hpre t h2
      · simp [List.eraseP_cons, hd, hdb]

/-! Claim theorems. -/

/-- C5: for every stored entity whose `translations` map already contains
the requested `target_language` as a key, `get_details` returns the
existing entity unchanged (its `_id` materialized into the `id` field) and
makes no provider call and no storage write. -/
theorem C5_cache_hit_no_fetch_no_write
    (dbFind : List StoredDoc) (stored : StoredDoc) (l : List Val)
    (newOid : String) (pr : ProviderResp)
    (text source_language target_language : String)
    (hfind : find_one dbFind text source_language = some stored)
    (hhit : lookupA stored.data.translations target_language = some l) :
    get_details dbFind dbFind newOid pr text source_language target_language =
      { resp := .ok { stored.data with id := some stored.oid },
        db := dbFind, providerCalls := 0, updates := [], inserts := [] } := by
  unfold get_details
  rw [hfind]
  simp only [hhit]

/-- C9: `delete_details` distinguishes its failure kinds.  An invalid
ObjectId string yields the 400 client error with no storage operation
attempted; a well-formed id matching no stored document yields the 404; a
well-formed id matching a stored document yields the 204 success and the
collection afterwards is the original with exactly the first matching
document removed. -/
theorem C9_delete_failure_kinds (id : String) (db : List StoredDoc) :
    (isValidOid id = false →
      delete_details id db =
        { resp := .error (.http 400 ("Details " ++ id ++ " is invalid")),
          db := db, deleteOps := 0 }) ∧
    (isValidOid id = true → (∀ s ∈ db, oidMatches id s = false) →
      delete_details id db =
        { resp := .error (.http 404 ("Details " ++ id ++ " not found")),
          db := db, deleteOps := 1 }) ∧
    (isValidOid id = true → ∀ s ∈ db, oidMatches id s = true →
      (delete_details id db).resp = .ok () ∧
      (delete_details id db).deleteOps = 1 ∧
      ∃ x pre post, db = pre ++ x :: post ∧ oidMatches id x = true ∧
        (∀ t ∈ pre, oidMatches id t = false) ∧
        (delete_details id db).db = pre ++ post) := by
  refine ⟨?_, ?_, ?_⟩
  · intro hv
    simp [delete_details, hv]
  · intro hv hnone
    have hany : db.any (oidMatches id) = false := by
      rw [List.any_eq_false]
      intro s hs
      simp [hnone s hs]
    simp [delete_details, hv, hany]
  · intro hv s hs hsm
    have hany : db.any (oidMatches id) = true :=
      List.any_eq_true.mpr ⟨s, hs, hsm⟩
    have hred : delete_details id db =
        { resp := .ok (), db := db.eraseP (oidMatches id), deleteOps := 1 } := by
      simp [delete_details, hv, hany]
    rw [hred]
    exact ⟨rfl, rfl, eraseP_split _ db hany⟩

/-- C5 witness: a concrete cache hit — the stored entity for ("casa","en")
already holds "es", so the request returns it with no provider call and no
write (the provider is even set to fail, and is never consulted). -/
theorem C5_cache_hit_witness :
    find_one [docCasa] "casa" "en" = some docCasa ∧
    lookupA docCasa.data.translations "es" = some [Val.vstr "hola"] ∧
    get_details [docCasa] [docCasa] oid2 .raised "casa" "en" "es" =
      { resp := .ok { casaDetails with id := some oid1 },
        db := [docCasa], providerCalls := 0, updates := [], inserts := [] } :=
  ⟨rfl, rfl,
    C5_cache_hit_no_fetch_no_write [docCasa] docCasa [Val.vstr "hola"]
      oid2 .raised "casa" "en" "es" rfl rfl⟩

/-- C9 witness: concrete runs of the three delete outcomes — an invalid id
string "zz" yields the 400 with zero delete operations, a well-formed id
matching nothing yields the 404, and the stored document's own id yields
the 204 and empties the collection. -/
theorem C9_delete_failure_kinds_witness :
    delete_details "zz" [docCasa] =
      { resp := .error (.http 400 ("Details " ++ "zz" ++ " is invalid")),
        db := [docCasa], deleteOps := 0 } ∧
    delete_details oid2 [docCasa] =
      { resp := .error (.http 404 ("Details " ++ oid2 ++ " not found")),
        db := [docCasa], deleteOps := 1 } ∧
    (delete_details oid1 [docCasa]).resp = .ok () ∧
    (delete_details oid1 [docCasa]).deleteOps = 1 :=
  ⟨(C9_delete_failure_kinds "zz" [docCasa]).1 (by decide),
   (C9_delete_failure_kinds oid2 [docCasa]).2.1 (by decide) (by decide),
   ((C9_delete_failure_kinds oid1 [docCasa]).2.2 (by decide) docCasa
      (List.mem_cons_self docCasa []) (by decide)).1,
   ((C9_delete_failure_kinds oid1 [docCasa]).2.2 (by decide) docCasa
      (List.mem_cons_self docCasa []) (by decide)).2.1⟩

/-- C1 counterexample: a creation race.  The initial `find_one` sees an
empty collection, but by insert time a concurrent request has stored the
("casa","en") entity; the insert hits the uniqueness constraint and
`get_details` surfaces the `DuplicateKeyError` to the caller instead of
re-reading and returning the existing entity. -/
theorem C1_race_counterexample :
    (get_details [] [docCasa] oid2 prFr "casa" "en" "fr").resp =
      .error .duplicateKey := rfl

/-- C1 (amended): when a first-time creation races and the insert hits the
storage uniqueness constraint, the violation is NOT absorbed: `get_details`
has no handler around `insert_one`, so the error propagates to the caller
and no re-read of the now-existing entity happens. -/
theorem C1_amended_race_insert_raises
    (dbFind dbIns : List StoredDoc) (newOid : String) (pr : ProviderResp)
    (text sl tl : String) (d : Details)
    (hfind : find_one dbFind text sl = none)
    (hmeta : ∃ m, translate_text pr = .ok m ∧
      parse_translation_metadata text sl tl m = .ok d)
    (hdup : dbIns.any (fun s => s.data.text == text &&
      s.data.source_language == sl) = true) :
    get_details dbFind dbIns newOid pr text sl tl =
      { resp := .error .duplicateKey, db := dbIns, providerCalls := 1,
        updates := [], inserts := [] } := by
  obtain ⟨m, htr, hp⟩ := hmeta
  simp [get_details, hfind, htr, hp, hdup]

/-- C1 amended witness: the amended theorem applied to the concrete race of
the counterexample. -/
theorem C1_amended_race_insert_raises_witness :
    find_one [] "casa" "en" = none ∧
    [docCasa].any (fun s => s.data.text == "casa" &&
      s.data.source_language == "en") = true ∧
    get_details [] [docCasa] oid2 prFr "casa" "en" "fr" =
      { resp := .error .duplicateKey, db := [docCasa], providerCalls := 1,
        updates := [], inserts := [] } :=
  ⟨rfl, rfl,
    C1_amended_race_insert_raises [] [docCasa] oid2 prFr "casa" "en" "fr"
      { id := none, text := "casa", source_language := "en",
        definitions := [], examples := [],
        translations := [("fr", [Val.vstr "bonjour"])] }
      rfl ⟨frMeta, rfl, rfl⟩ rfl⟩

/-- C2 counterexample: extending the ("casa","en") entity with "fr" while a
concurrent request has already persisted "de".  The update operation the
code issues is a `$set` of the *whole* `translations` field with the
in-memory copy (not the single key path `translations.fr`), and applying it
loses the concurrently added "de" key — which the single-key-path update
described by the claim (shown last) would have preserved. -/
theorem C2_whole_map_counterexample :
    (get_details [docCasa] [docCasaDe] oid2 prFr "casa" "en" "fr").updates =
      [(oid1, .wholeMap [("es", [Val.vstr "hola"]), ("fr", [Val.vstr "bonjour"])])] ∧
    lookupA docCasaDe.data.translations "de" = some [Val.vstr "hallo"] ∧
    (findById (get_details [docCasa] [docCasaDe] oid2 prFr "casa" "en" "fr").db
        oid1).map (fun s => lookupA s.data.translations "de") = some none ∧
    applyTransUpdate (.oneKey "fr" [Val.vstr "bonjour"]) docCasaDe.data.translations =
      [("es", [Val.vstr "hola"]), ("de", [Val.vstr "hallo"]),
       ("fr", [Val.vstr "bonjour"])] :=
  ⟨rfl, rfl, rfl, rfl⟩

/-- C2 (amended): when an existing entity is extended with a missing
`target_language`, the persisted update operation `$set`s the whole
`translations` field to the in-memory merged copy; whole-map `$set`
semantics ignore the stored map entirely, so any key added concurrently by
another request is clobbered. -/
theorem C2_amended_whole_map_update
    (dbFind dbIns : List StoredDoc) (stored : StoredDoc) (newOid : String)
    (pr : ProviderResp) (m : Val) (l : List Val) (text sl tl : String)
    (hfind : find_one dbFind text sl = some stored)
    (hmiss : lookupA stored.data.translations tl = none)
    (htr : translate_text pr = .ok m)
    (hp : parse_translations m tl = .ok [(tl, l)]) :
    (get_details dbFind dbIns newOid pr text sl tl).updates =
      [(stored.oid, .wholeMap (insertA stored.data.translations tl l))] ∧
    ∀ storedMap : List (String × List Val),
      applyTransUpdate (.wholeMap (insertA stored.data.translations tl l))
        storedMap = insertA stored.data.translations tl l := by
  constructor
  · unfold get_details
    rw [hfind]
    simp only [hmiss, htr, hp]
    simp [lookupA]
  · intro storedMap
    rfl

/-- C2 amended witness: the amended theorem at the concrete race of the
counterexample. -/
theorem C2_amended_whole_map_update_witness :
    find_one [docCasa] "casa" "en" = some docCasa ∧
    lookupA docCasa.data.translations "fr" = none ∧
    translate_text prFr = .ok frMeta ∧
    parse_translations frMeta "fr" = .ok [("fr", [Val.vstr "bonjour"])] ∧
    (get_details [docCasa] [docCasaDe] oid2 prFr "casa" "en" "fr").updates =
      [(docCasa.oid, .wholeMap (insertA docCasa.data.translations "fr"
        [Val.vstr "bonjour"]))] :=
  ⟨rfl, rfl, rfl, rfl,
    (C2_amended_whole_map_update [docCasa] [docCasaDe] docCasa oid2 prFr
      frMeta [Val.vstr "bonjour"] "casa" "en" "fr" rfl rfl rfl rfl).1⟩

/-- C4: for every entity whose `translations` map lacks the requested
`target_language`, the merge performed by `get_details` adds exactly that
one key at the end of the insertion order and leaves every other
translations key (same list, same order) and the `definitions` and
`examples` fields unchanged, both in the returned entity and in the
persisted document. -/
theorem C4_merge_adds_exactly_one_key
    (dbFind : List StoredDoc) (stored : StoredDoc) (newOid : String)
    (pr : ProviderResp) (m : Val) (l : List Val) (text sl tl : String)
    (hfind : find_one dbFind text sl = some stored)
    (hid : findById dbFind stored.oid = some stored)
    (hmiss : lookupA stored.data.translations tl = none)
    (htr : translate_text pr = .ok m)
    (hp : parse_translations m tl = .ok [(tl, l)]) :
    (get_details dbFind dbFind newOid pr text sl tl).resp =
      .ok { stored.data with
            id := some stored.oid,
            translations := stored.data.translations ++ [(tl, l)] } ∧
    (∀ k, k ≠ tl →
      lookupA (stored.data.translations ++ [(tl, l)]) k =
        lookupA stored.data.translations k) ∧
    lookupA (stored.data.translations ++ [(tl, l)]) tl = some l ∧
    findById (get_details dbFind dbFind newOid pr text sl tl).db stored.oid =
      some { stored with data := { stored.data with
        translations := stored.data.translations ++ [(tl, l)] } } ∧
    (∀ s ∈ (get_details dbFind dbFind newOid pr text sl tl).db,
      s.oid ≠ stored.oid → s ∈ dbFind) := by
  have happ : insertA stored.data.translations tl l =
      stored.data.translations ++ [(tl, l)] :=
    insertA_eq_append stored.data.translations tl l hmiss
  have hred : get_details dbFind dbFind newOid pr text sl tl =
      { resp := .ok { stored.data with
          id := some stored.oid,
          translations := insertA stored.data.translations tl l },
        db := updateOneById dbFind stored.oid
          (.wholeMap (insertA stored.data.translations tl l)),
        providerCalls := 1,
        updates := [(stored.oid,
          .wholeMap (insertA stored.data.translations tl l))],
        inserts := [] } := by
    simp [get_details, hfind, hmiss, htr, hp, lookupA]
  refine ⟨?_, ?_, ?_, ?_, ?_⟩
  · rw [hred, happ]
  · intro k hk
    exact lookupA_append_ne stored.data.translations tl k l hk
  · exact lookupA_append_self stored.data.translations tl l hmiss
  · rw [hred]
    have h2 := updateOneById_findById dbFind stored.oid
      (.wholeMap (insertA stored.data.translations tl l)) stored hid
    rw [h2, happ]
    rfl
  · intro s hs hne
    rw [hred] at hs
    exact updateOneById_mem dbFind stored.oid _ s hs hne

/-- C4 witness: the concrete "casa" entity gains exactly the "fr" key; the
"es" entry, definitions and examples are untouched in the response and in
the stored document. -/
theorem C4_merge_adds_exactly_one_key_witness :
    find_one [docCasa] "casa" "en" = some docCasa ∧
    lookupA docCasa.data.translations "fr" = none ∧
    (get_details [docCasa] [docCasa] oid2 prFr "casa" "en" "fr").resp =
      .ok { casaDetails with
            id := some oid1,
            translations := casaDetails.translations ++
              [("fr", [Val.vstr "bonjour"])] } ∧
    lookupA (casaDetails.translations ++ [("fr", [Val.vstr "bonjour"])]) "es" =
      lookupA casaDetails.translations "es" ∧
    findById (get_details [docCasa] [docCasa] oid2 prFr "casa" "en" "fr").db oid1 =
      some { oid := oid1, data := { casaDetails with
        translations := casaDetails.translations ++
          [("fr", [Val.vstr "bonjour"])] } } :=
  ⟨rfl, rfl,
    (C4_merge_adds_exactly_one_key [docCasa] docCasa oid2 prFr frMeta
      [Val.vstr "bonjour"] "casa" "en" "fr" rfl rfl rfl rfl rfl).1,
    (C4_merge_adds_exactly_one_key [docCasa] docCasa oid2 prFr frMeta
      [Val.vstr "bonjour"] "casa" "en" "fr" rfl rfl rfl rfl rfl).2.1 "es"
      (by decide),
    (C4_merge_adds_exactly_one_key [docCasa] docCasa oid2 prFr frMeta
      [Val.vstr "bonjour"] "casa" "en" "fr" rfl rfl rfl rfl rfl).2.2.2.1⟩

/-- C6: `translate_text` distinguishes three failure kinds and raises a
distinct 502 for each — a failed provider call, a list result where a
single translation was expected, and a single result lacking the expected
structured payload; none is downgraded to an empty (ok) result, and when
any of them occurs during creation `get_details` surfaces that error with
no entity persisted and no write issued. -/
theorem C6_upstream_failure_kinds :
    translate_text .raised =
      .error (.http 502 "Unable to fetch translation from Google Translate API.") ∧
    (∀ xs, translate_text (.listResult xs) =
      .error (.http 502 "Translation value is invalid! Expected a single translation, received a list.")) ∧
    translate_text (.single []) =
      .error (.http 502 "Translation does not have extra data! Unable to parse.") ∧
    (Err.http 502 "Unable to fetch translation from Google Translate API." ≠
      .http 502 "Translation value is invalid! Expected a single translation, received a list.") ∧
    (Err.http 502 "Unable to fetch translation from Google Translate API." ≠
      .http 502 "Translation does not have extra data! Unable to parse.") ∧
    (Err.http 502 "Translation value is invalid! Expected a single translation, received a list." ≠
      .http 502 "Translation does not have extra data! Unable to parse.") ∧
    (∀ (dbFind dbIns : List StoredDoc) (newOid : String) (pr : ProviderResp)
       (text sl tl : String) (e : Err),
      find_one dbFind text sl = none →
      translate_text pr = .error e →
      get_details dbFind dbIns newOid pr text sl tl =
        { resp := .error e, db := dbIns, providerCalls := 1,
          updates := [], inserts := [] }) := by
  refine ⟨rfl, fun xs => rfl, rfl, by decide, by decide, by decide, ?_⟩
  intro dbFind dbIns newOid pr text sl tl e hfind htr
  simp [get_details, hfind, htr]

/-- C6 witness: the shape-violation case of P6 run concretely through
creation — the provider returns a list, the caller sees the shape-violation
502, and nothing is inserted. -/
theorem C6_upstream_failure_kinds_witness :
    find_one [] "casa" "en" = none ∧
    translate_text (.listResult []) =
      .error (.http 502 "Translation value is invalid! Expected a single translation, received a list.") ∧
    get_details [] [] oid2 (.listResult []) "casa" "en" "fr" =
      { resp := .error (.http 502 "Translation value is invalid! Expected a single translation, received a list."),
        db := [], providerCalls := 1, updates := [], inserts := [] } :=
  ⟨rfl, rfl,
    C6_upstream_failure_kinds.2.2.2.2.2.2 [] [] oid2 (.listResult [])
      "casa" "en" "fr" _ rfl rfl⟩

/-- C7: within a definitions section, an item whose text sub-position is
missing (its subscript raises IndexError or TypeError) is skipped and
extraction continues with the remaining items; an item with string text
but a missing synonyms sub-position yields a `Definition` with
`synonyms = []`; and on the concrete P4 metadata — one item lacking
synonyms, one lacking text — `parse_definitions` returns exactly one
`Definition` with empty synonyms and no failure. -/
theorem C7_definition_item_resilience :
    (∀ (p : Val) (rest : List Val),
      (getitem p 0 = .error .pyIndexError ∨ getitem p 0 = .error .pyTypeError) →
      defPartsLoop (p :: rest) = defPartsLoop rest) ∧
    (∀ (p : Val) (rest : List Val) (s : String),
      getitem p 0 = .ok (.vstr s) →
      (getPath p [5, 0, 0] = .error .pyIndexError ∨
        getPath p [5, 0, 0] = .error .pyTypeError) →
      defPartsLoop (p :: rest) =
        (defPartsLoop rest).map (fun ds => { text := s, synonyms := [] } :: ds)) ∧
    parse_definitions p4Meta = .ok [{ text := "casa", synonyms := [] }] := by
  refine ⟨?_, ?_, rfl⟩
  · intro p rest h
    rcases h with h | h <;> simp [defPartsLoop, h]
  · intro p rest s ht h
    have hsyn : catchIT (getPath p [5, 0, 0]) (.vlist []) = .ok (.vlist []) := by
      rcases h with h | h <;> simp [catchIT, h]
    simp only [defPartsLoop, ht, mkDefinitionText, hsyn, pyIter]
    simp only [List.mapM_nil]
    cases defPartsLoop rest <;> rfl

/-- C7 witness: the two skip/default paths applied to the concrete parts of
the P4 metadata. -/
theorem C7_definition_item_resilience_witness :
    getitem (Val.vlist []) 0 = .error .pyIndexError ∧
    defPartsLoop [Val.vlist []] = defPartsLoop [] ∧
    getitem (Val.vlist [Val.vstr "casa"]) 0 = .ok (.vstr "casa") ∧
    getPath (Val.vlist [Val.vstr "casa"]) [5, 0, 0] = .error .pyIndexError ∧
    defPartsLoop [Val.vlist [Val.vstr "casa"]] =
      (defPartsLoop []).map (fun ds => { text := "casa", synonyms := [] } :: ds) :=
  ⟨rfl,
    C7_definition_item_resilience.1 (Val.vlist []) [] (Or.inl rfl),
    rfl, rfl,
    C7_definition_item_resilience.2.1 (Val.vlist [Val.vstr "casa"]) [] "casa"
      rfl (Or.inl rfl)⟩

/-- C8: `parse_examples` strips inline HTML markup from each example item's
text before appending it — an example block whose text sub-position is the
string `s` contributes exactly the tag-stripped `s` — and concretely the
input text "<b>hola</b> mundo" parses to "hola mundo". -/
theorem C8_examples_html_stripped :
    (∀ (w : Val) (s : String) (rest : List Val),
      exBlocksLoop (Val.vlist [w, Val.vstr s] :: rest) =
        (exBlocksLoop rest).map (fun es => pySubHtml s :: es)) ∧
    pySubHtml "<b>hola</b> mundo" = "hola mundo" ∧
    parse_examples p5Meta = .ok ["hola mundo"] := by
  refine ⟨?_, rfl, rfl⟩
  intro w s rest
  simp only [exBlocksLoop, getitem, List.get?, pySubHtmlVal]
  cases exBlocksLoop rest <;> rfl

/-- C3 counterexample: the three parser routines are not total.  On
metadata whose definitions section sub-path resolves to the integer 7, the
`except (IndexError, TypeError)` clause accepts the value, and the
following `for` loop over it raises an uncaught `TypeError`, so
`parse_definitions` raises instead of returning a result. -/
theorem C3_parser_raises_counterexample :
    parse_definitions badDefsMeta = .error .pyTypeError := rfl

/-- C3 (amended): any failure to locate an entire section whose sub-path
lookup raises IndexError or TypeError yields an empty collection for that
section, and any inner block or item whose own subscript lookup raises
IndexError or TypeError is skipped without aborting extraction of the
remaining ones, in all three routines; but the routines are not total for
all shapes of the nested input — a located value that is not iterable
where the code iterates raises an uncaught TypeError, as does `re.sub` on
a non-string example text, and a non-string definition text makes the
pydantic `Definition` constructor raise an uncaught validation error. -/
theorem C3_amended_section_failures_yield_empty (metadata : Val) (tl : String) :
    ((getPath metadata [3, 1, 0] = .error .pyIndexError ∨
      getPath metadata [3, 1, 0] = .error .pyTypeError) →
      parse_definitions metadata = .ok []) ∧
    ((getPath metadata [3, 2, 0] = .error .pyIndexError ∨
      getPath metadata [3, 2, 0] = .error .pyTypeError) →
      parse_examples metadata = .ok []) ∧
    ((getPath metadata [3, 5, 0] = .error .pyIndexError ∨
      getPath metadata [3, 5, 0] = .error .pyTypeError) →
      parse_translations metadata tl = .ok [(tl, [])]) ∧
    (∀ (p : Val) (rest : List Val),
      (getitem p 0 = .error .pyIndexError ∨ getitem p 0 = .error .pyTypeError) →
      defPartsLoop (p :: rest) = defPartsLoop rest) ∧
    (∀ (b : Val) (rest : List Val),
      (getitem b 1 = .error .pyIndexError ∨ getitem b 1 = .error .pyTypeError) →
      defBlocksLoop (b :: rest) = defBlocksLoop rest) ∧
    (∀ (b : Val) (rest : List Val),
      (getitem b 1 = .error .pyIndexError ∨ getitem b 1 = .error .pyTypeError) →
      exBlocksLoop (b :: rest) = exBlocksLoop rest) ∧
    (∀ (p : Val) (rest : List Val),
      (getitem p 0 = .error .pyIndexError ∨ getitem p 0 = .error .pyTypeError) →
      trPartsLoop (p :: rest) = trPartsLoop rest) ∧
    (∀ (b : Val) (rest : List Val),
      (getitem b 1 = .error .pyIndexError ∨ getitem b 1 = .error .pyTypeError) →
      trBlocksLoop (b :: rest) = trBlocksLoop rest) := by
  refine ⟨?_, ?_, ?_, ?_, ?_, ?_, ?_, ?_⟩
  · intro h
    rcases h with h | h <;>
      simp [parse_definitions, catchIT, h, pyIter, defBlocksLoop]
  · intro h
    rcases h with h | h <;>
      simp [parse_examples, catchIT, h, pyIter, exBlocksLoop]
  · intro h
    rcases h with h | h <;>
      simp [parse_translations, catchIT, h, pyIter, trBlocksLoop]
  · intro p rest h
    rcases h with h | h <;> simp [defPartsLoop, h]
  · intro b rest h
    rcases h with h | h <;> simp [defBlocksLoop, h]
  · intro b rest h
    rcases h with h | h <;> simp [exBlocksLoop, h]
  · intro p rest h
    rcases h with h | h <;> simp [trPartsLoop, h]
  · intro b rest h
    rcases h with h | h <;> simp [trBlocksLoop, h]

/-- C3 amended witness: on metadata whose position 3 is an empty list, all
three section lookups raise IndexError and all three routines return empty
collections; and concrete malformed blocks/items (a `None` item whose text
subscript raises TypeError, an integer block whose parts subscript raises
TypeError) are skipped by every loop. -/
theorem C3_amended_witness :
    getPath emptyMeta [3, 1, 0] = .error .pyIndexError ∧
    parse_definitions emptyMeta = .ok [] ∧
    parse_examples emptyMeta = .ok [] ∧
    parse_translations emptyMeta "fr" = .ok [("fr", [])] ∧
    getitem Val.vnone 0 = .error .pyTypeError ∧
    getitem (Val.vint 3) 1 = .error .pyTypeError ∧
    defPartsLoop [Val.vnone] = defPartsLoop [] ∧
    defBlocksLoop [Val.vint 3] = defBlocksLoop [] ∧
    exBlocksLoop [Val.vint 3] = exBlocksLoop [] ∧
    trPartsLoop [Val.vnone] = trPartsLoop [] ∧
    trBlocksLoop [Val.vint 3] = trBlocksLoop [] :=
  ⟨rfl,
    (C3_amended_section_failures_yield_empty emptyMeta "fr").1 (Or.inl rfl),
    (C3_amended_section_failures_yield_empty emptyMeta "fr").2.1 (Or.inl rfl),
    (C3_amended_section_failures_yield_empty emptyMeta "fr").2.2.1 (Or.inl rfl),
    rfl, rfl,
    (C3_amended_section_failures_yield_empty emptyMeta "fr").2.2.2.1
      Val.vnone [] (Or.inr rfl),
    (C3_amended_section_failures_yield_empty emptyMeta "fr").2.2.2.2.1
      (Val.vint 3) [] (Or.inr rfl),
    (C3_amended_section_failures_yield_empty emptyMeta "fr").2.2.2.2.2.1
      (Val.vint 3) [] (Or.inr rfl),
    (C3_amended_section_failures_yield_empty emptyMeta "fr").2.2.2.2.2.2.1
      Val.vnone [] (Or.inr rfl),
    (C3_amended_section_failures_yield_empty emptyMeta "fr").2.2.2.2.2.2.2
      (Val.vint 3) [] (Or.inr rfl)⟩

/-- C10 counterexample: `parse_translations` does not return a mapping for
every metadata input — when the translations section sub-path resolves to
the integer 7, the `except` clause accepts it and the following `for` loop
raises an uncaught `TypeError`. -/
theorem C10_translations_raise_counterexample :
    parse_translations badTransMeta "fr" = .error .pyTypeError := rfl

/-- C10 (amended): whenever `parse_translations` returns, the returned
mapping contains exactly the single key `target_language` (possibly mapping
to the empty list); and because `get_details` treats any present key —
including one mapping to the empty list — as populated, an empty
translation result is cached at creation and a subsequent request for the
same (text, source_language, target_language) is a cache hit that never
invokes the provider. -/
theorem C10_amended_single_key_and_empty_cached :
    (∀ (m : Val) (tl : String) (r : List (String × List Val)),
      parse_translations m tl = .ok r → ∃ ts, r = [(tl, ts)]) ∧
    (∀ (db : List StoredDoc) (newOid newOid2 : String) (pr pr2 : ProviderResp)
       (m : Val) (text sl tl : String) (d : Details),
      find_one db text sl = none →
      translate_text pr = .ok m →
      parse_translation_metadata text sl tl m = .ok d →
      d.text = text → d.source_language = sl →
      d.translations = [(tl, [])] →
      get_details db db newOid pr text sl tl =
        { resp := .ok { d with id := some newOid },
          db := db ++ [{ oid := newOid, data := d }],
          providerCalls := 1, updates := [], inserts := [d] } ∧
      get_details (db ++ [{ oid := newOid, data := d }])
          (db ++ [{ oid := newOid, data := d }]) newOid2 pr2 text sl tl =
        { resp := .ok { d with id := some newOid },
          db := db ++ [{ oid := newOid, data := d }],
          providerCalls := 0, updates := [], inserts := [] }) := by
  constructor
  · intro m tl r h
    unfold parse_translations at h
    split at h
    · exact Except.noConfusion h
    · split at h
      · exact Except.noConfusion h
      · split at h
        · exact Except.noConfusion h
        · injection h with h2
          exact ⟨_, h2.symm⟩
  · intro db newOid newOid2 pr pr2 m text sl tl d hfind htr hp htext hsl htrs
    have hany := find_one_none_any_false db text sl hfind
    refine ⟨by simp [get_details, hfind, htr, hp, hany], ?_⟩
    have hfind2 : find_one (db ++ [{ oid := newOid, data := d }]) text sl =
        some { oid := newOid, data := d } := by
      apply find_one_append_none db _ text sl hfind
      simp [htext, hsl]
    simp [get_details, hfind2, htrs, lookupA]

/-- C10 amended witness: the single-key shape at a concrete input, and a
concrete second request for a cached empty "fr" list that performs no
provider call and no write. -/
theorem C10_amended_witness :
    (∃ ts, [("fr", ([] : List Val))] = [("fr", ts)]) ∧
    get_details ([] ++ [{ oid := oid2, data := cachedEmptyDetails }])
        ([] ++ [{ oid := oid2, data := cachedEmptyDetails }]) oid1 .raised
        "casa" "en" "fr" =
      { resp := .ok { cachedEmptyDetails with id := some oid2 },
        db := [] ++ [{ oid := oid2, data := cachedEmptyDetails }],
        providerCalls := 0, updates := [], inserts := [] } :=
  ⟨C10_amended_single_key_and_empty_cached.1 emptyMeta "fr" _ rfl,
   (C10_amended_single_key_and_empty_cached.2 [] oid2 oid1 prEmpty .raised
      emptyMeta "casa" "en" "fr" cachedEmptyDetails rfl rfl rfl rfl rfl
      rfl).2⟩

end TranslationService
